import Mathlib

/-!
Verification of the CRUD Service Orchestration Layer of the
microservices-boilerplate repository (serviceB).

The repository ships the Service tests, the Service mock, the handler and
the handler tests; the Service implementation itself, the identifier codec
and the errors.GetStatus classifier are not part of the shipped sources.
Those parts are therefore modelled from the specification (sections 4.1,
4.3, 4.5 of the spec), constrained wherever possible by the behavior the
shipped tests pin down (expected mock calls, expected returned errors,
expected HTTP status codes).

Modelling conventions:
- Go strings (raw identifier text) are lists of byte values (List Nat).
- A parsed 128-bit key is the list of its 32 hexadecimal nibble values.
- Fallible operations return Except Err.
- The side effects of one Service call (repository invocations and
  Logger.Error invocations) are recorded as an event trace, in emission
  order; the trace is complete before the call returns, so an event in
  the trace happened before the return.
-/

/-- Error values of the internal errors package. The shipped tests use the
sentinels ErrGeneric, ErrNotFound, ErrCreatingUUID and the diagnostic
NewErrIncorrectIDLength(raw) carrying the offending string; the spec adds
a ValidationFailed kind (detected above the Service layer) and an open set
of other repository failures, modelled by the generic constructor. -/
inductive Err where
  | notFound : Err
  | creatingUUID : Err
  | incorrectIDLength : List Nat → Err
  | validationFailed : Err
  | generic : Nat → Err
deriving DecidableEq, Repr

/-- Is a byte a lowercase hexadecimal digit (0-9 or a-f)? -/
def isHexLower (b : Nat) : Bool :=
  (48 ≤ b && b ≤ 57) || (97 ≤ b && b ≤ 102)

/-- Nibble value of a lowercase hexadecimal digit byte. -/
def nibbleOf (b : Nat) : Nat :=
  if b ≤ 57 then b - 48 else b - 87

/-- Lowercase hexadecimal digit byte of a nibble value. -/
def hexByte (n : Nat) : Nat :=
  if n < 10 then n + 48 else n + 87

/-- Canonical textual layout of the 128-bit key: 36 positions, a
hexadecimal digit at every position marked true and a hyphen (byte 45) at
every position marked false, in the 8-4-4-4-12 grouping. -/
def uuidTemplate : List Bool :=
  List.replicate 8 true ++ [false] ++ List.replicate 4 true ++ [false] ++
    List.replicate 4 true ++ [false] ++ List.replicate 4 true ++ [false] ++
    List.replicate 12 true

/-- Does a byte list match a layout template: lowercase hexadecimal digits
at the true positions, hyphens at the false positions, same length? -/
def matchesTemplate : List Bool → List Nat → Bool
  | [], [] => true
  | true :: t, b :: bs => isHexLower b && matchesTemplate t bs
  | false :: t, b :: bs => (b == 45) && matchesTemplate t bs
  | _, _ => false

/-- Nibble values of the digits at the true positions of the template. -/
def extractHex : List Bool → List Nat → List Nat
  | true :: t, b :: bs => nibbleOf b :: extractHex t bs
  | false :: t, _ :: bs => extractHex t bs
  | _, _ => []

/-- Render nibbles back into the textual layout: a lowercase digit at each
true position, a hyphen at each false position. -/
def renderKey : List Bool → List Nat → List Nat
  | true :: t, n :: ns => hexByte n :: renderKey t ns
  | false :: t, ns => 45 :: renderKey t ns
  | _, _ => []

/-- Modelled from the spec: the identifier codec Parse (section 4.1) is
not under the shipped sources. Input is any string; it must match the
fixed textual layout of the 128-bit key; on success the parsed key is
returned, on a length/format mismatch the length-specific diagnostic
carrying the offending string is returned (the invalid-identifier kind of
the spec taxonomy) and no side effect occurs. -/
def parseUUID (raw : List Nat) : Except Err (List Nat) :=
  if matchesTemplate uuidTemplate raw then
    .ok (extractHex uuidTemplate raw)
  else
    .error (.incorrectIDLength raw)

/-- Canonical string form of a parsed key (total direction of the codec). -/
def keyString (k : List Nat) : List Nat :=
  renderKey uuidTemplate k

/-- The resource record of serviceB: an identity field (absent before
creation, a parsed key thereafter) plus business attributes, modelled by
one opaque byte-string attribute. -/
structure ItemB where
  id : Option (List Nat)
  name : List Nat
deriving DecidableEq, Repr

/-- A contextual field value passed to Logger.Error: a parsed key, a raw
identifier string, or an entity payload. -/
inductive FieldVal where
  | key : List Nat → FieldVal
  | raw : List Nat → FieldVal
  | item : ItemB → FieldVal
deriving DecidableEq, Repr

/-- One observable side effect of a Service call: a repository invocation
(with its arguments) or a Logger.Error invocation (with the underlying
error, the static message and the contextual fields). -/
inductive Event where
  | repoGetAll : Event
  | repoGetByID : List Nat → Event
  | repoInsert : ItemB → Event
  | repoUpdate : List Nat → ItemB → Event
  | repoRemove : List Nat → Event
  | logError : Err → String → List (String × FieldVal) → Event
deriving DecidableEq, Repr

/-- Is an event a repository invocation? -/
def isRepoEvent : Event → Bool
  | .logError _ _ _ => false
  | _ => true

/-- Is an event a Logger.Error invocation? -/
def isLogEvent : Event → Bool
  | .logError _ _ _ => true
  | _ => false

/-- The repository port of serviceB (section 4.4): one response per
operation, modelling the behavior of an injected storage adapter for a
single Service call. -/
structure Repository where
  getAll : Except Err (List ItemB)
  getByID : List Nat → Except Err ItemB
  insert : ItemB → Except Err ItemB
  update : List Nat → ItemB → Except Err Unit
  remove : List Nat → Except Err Unit

/-- Modelled from the spec: the static log message of a failed GetAll. -/
def FailedToGetAll : String := "failed to get all"

/-- Modelled from the spec: the static log message of a failed GetOneByID. -/
def FailedToGetByID : String := "failed to get by id"

/-- Modelled from the spec: the static log message of a failed Create. -/
def FailedToCreate : String := "failed to create"

/-- Modelled from the spec: the static log message of a failed Update. -/
def FailedToUpdate : String := "failed to update"

/-- Modelled from the spec: the static log message of a failed Delete. -/
def FailedToDelete : String := "failed to delete"

/-- Modelled from the spec: the static log message of an identifier parse
failure. -/
def FailedToParseUUID : String := "failed to parse identifier"

/-- Modelled from the spec: the field name of the raw identifier logged on
a parse failure (spec: field id holding raw). -/
def requestIDKey : String := "id"

/-- Modelled from the spec: the field name of the parsed key logged on a
repository failure (spec: field id holding key). -/
def itemIDKey : String := "id"

/-- Modelled from the spec: the field name of the entity payload logged on
a failed write (spec: field item holding the input entity). -/
def itemObjKey : String := "item"

namespace Service

/-- Modelled from the spec: Service.GetAll (section 4.5; the Service
implementation is not under the shipped sources). Delegates to the
repository; on failure logs once with the static message and no
contextual fields and returns the original error; on success returns the
collection as-is. The second component is the emitted event trace. -/
def GetAll (r : Repository) : Except Err (List ItemB) × List Event :=
  match r.getAll with
  | .ok items => (.ok items, [.repoGetAll])
  | .error e => (.error e, [.repoGetAll, .logError e FailedToGetAll []])

/-- Modelled from the spec: Service.GetOneByID. Parses the raw identifier
first; on a parse failure logs the length diagnostic under the static
parse message with field id holding the raw string and returns the
ErrCreatingUUID sentinel without touching the repository (behavior pinned
by the shipped Service tests); otherwise delegates and on repository
failure logs with field id holding the parsed key and propagates the
error unchanged. -/
def GetOneByID (r : Repository) (raw : List Nat) : Except Err ItemB × List Event :=
  match parseUUID raw with
  | .error _ =>
      (.error .creatingUUID,
        [.logError (.incorrectIDLength raw) FailedToParseUUID [(requestIDKey, .raw raw)]])
  | .ok k =>
      match r.getByID k with
      | .ok item => (.ok item, [.repoGetByID k])
      | .error e =>
          (.error e, [.repoGetByID k, .logError e FailedToGetByID [(itemIDKey, .key k)]])

/-- Modelled from the spec: Service.Create. Delegates to repository
Insert; on failure logs with field item holding the input entity and
propagates the error unchanged; on success returns the inserted entity
as-is. -/
def Create (r : Repository) (item : ItemB) : Except Err ItemB × List Event :=
  match r.insert item with
  | .ok created => (.ok created, [.repoInsert item])
  | .error e =>
      (.error e, [.repoInsert item, .logError e FailedToCreate [(itemObjKey, .item item)]])

/-- Modelled from the spec: Service.Update. Parses the raw identifier
first (same parse-failure behavior as GetOneByID); otherwise delegates
and on repository failure logs with fields id holding the parsed key and
item holding the input entity, propagating the error unchanged. -/
def Update (r : Repository) (raw : List Nat) (item : ItemB) : Except Err Unit × List Event :=
  match parseUUID raw with
  | .error _ =>
      (.error .creatingUUID,
        [.logError (.incorrectIDLength raw) FailedToParseUUID [(requestIDKey, .raw raw)]])
  | .ok k =>
      match r.update k item with
      | .ok _ => (.ok (), [.repoUpdate k item])
      | .error e =>
          (.error e,
            [.repoUpdate k item,
              .logError e FailedToUpdate [(itemIDKey, .key k), (itemObjKey, .item item)]])

/-- Modelled from the spec: Service.Delete. Parses the raw identifier
first (same parse-failure behavior as GetOneByID); otherwise delegates to
repository Remove and on failure logs with field id holding the parsed
key, propagating the error unchanged. -/
def Delete (r : Repository) (raw : List Nat) : Except Err Unit × List Event :=
  match parseUUID raw with
  | .error _ =>
      (.error .creatingUUID,
        [.logError (.incorrectIDLength raw) FailedToParseUUID [(requestIDKey, .raw raw)]])
  | .ok k =>
      match r.remove k with
      | .ok _ => (.ok (), [.repoRemove k])
      | .error e =>
          (.error e, [.repoRemove k, .logError e FailedToDelete [(itemIDKey, .key k)]])

end Service

/-- Modelled from the spec: the classifier errors.GetStatus mapping an
error value to the HTTP status the handler renders. Its source is not
under the shipped sources; the handler tests pin ErrNotFound to 404 and
both ErrGeneric and ErrCreatingUUID to 500, and the spec assigns the
ValidationFailed kind (request binding, above the Service) to the client
error class. Every other error value defaults to 500. -/
def GetStatus : Err → Nat
  | .notFound => 404
  | .validationFailed => 400
  | _ => 500

/-- A lowercase hexadecimal digit byte survives the nibble round trip. -/
theorem hexByte_nibbleOf (b : Nat) (h : isHexLower b = true) :
    hexByte (nibbleOf b) = b := by
  simp only [isHexLower, Bool.or_eq_true, Bool.and_eq_true, decide_eq_true_eq] at h
  unfold nibbleOf hexByte
  split_ifs <;> omega

/-- Rendering the nibbles extracted from a template-conformant byte list
reproduces the byte list. -/
theorem renderKey_extractHex (t : List Bool) :
    ∀ bs, matchesTemplate t bs = true → renderKey t (extractHex t bs) = bs := by
  induction t with
  | nil =>
    intro bs h
    cases bs with
    | nil => rfl
    | cons b bs => simp [matchesTemplate] at h
  | cons hd tl ih =>
    intro bs h
    cases bs with
    | nil => cases hd <;> simp [matchesTemplate] at h
    | cons b bs =>
      cases hd with
      | true =>
        simp only [matchesTemplate, Bool.and_eq_true] at h
        simp [extractHex, renderKey, hexByte_nibbleOf b h.1, ih bs h.2]
      | false =>
        simp only [matchesTemplate, Bool.and_eq_true, beq_iff_eq] at h
        simp [extractHex, renderKey, ih bs h.2, h.1]

/-- C9: for every string in the canonical textual layout of the 128-bit
key, Parse succeeds and converting the parsed key back to a string yields
the original string; for every string not matching the canonical
length/format, Parse fails with the invalid-identifier diagnostic
carrying the offending string. -/
theorem parseUUID_roundTrip (raw : List Nat) :
    (matchesTemplate uuidTemplate raw = true →
      parseUUID raw = .ok (extractHex uuidTemplate raw) ∧
      keyString (extractHex uuidTemplate raw) = raw) ∧
    (matchesTemplate uuidTemplate raw = false →
      parseUUID raw = .error (.incorrectIDLength raw)) := by
  constructor
  · intro h
    exact ⟨by simp [parseUUID, h], renderKey_extractHex uuidTemplate raw h⟩
  · intro h
    simp [parseUUID, h]

/-- The canonical string of the all-zero key, a sample valid identifier. -/
def sampleUUIDBytes : List Nat := renderKey uuidTemplate (List.replicate 32 0)

/-- Witness for C9 at the all-zero identifier string and at a three-byte
malformed string. -/
theorem parseUUID_roundTrip_witness :
    (matchesTemplate uuidTemplate sampleUUIDBytes = true ∧
      parseUUID sampleUUIDBytes = .ok (extractHex uuidTemplate sampleUUIDBytes) ∧
      keyString (extractHex uuidTemplate sampleUUIDBytes) = sampleUUIDBytes) ∧
    (matchesTemplate uuidTemplate [48, 48, 48] = false ∧
      parseUUID [48, 48, 48] = .error (.incorrectIDLength [48, 48, 48])) :=
  ⟨⟨by decide,
      ((parseUUID_roundTrip sampleUUIDBytes).1 (by decide)).1,
      ((parseUUID_roundTrip sampleUUIDBytes).1 (by decide)).2⟩,
    ⟨by decide, (parseUUID_roundTrip [48, 48, 48]).2 (by decide)⟩⟩

/-- A sample repository double for witnesses: empty store, inserts assign
the all-zero key. -/
def sampleRepo : Repository where
  getAll := .ok []
  getByID := fun _ => .error .notFound
  insert := fun it => .ok { it with id := some (List.replicate 32 0) }
  update := fun _ _ => .ok ()
  remove := fun _ => .ok ()

/-- A repository double whose every operation fails with the same generic
error, for witnesses on the failure paths. -/
def failingRepo : Repository where
  getAll := .error (.generic 0)
  getByID := fun _ => .error (.generic 0)
  insert := fun _ => .error (.generic 0)
  update := fun _ _ => .error (.generic 0)
  remove := fun _ => .error (.generic 0)

/-- A sample malformed identifier string (three bytes, wrong length). -/
def badRaw : List Nat := [48, 48, 48]

/-- A sample entity without an identifier. -/
def sampleItem : ItemB := { id := none, name := [97] }

/-- C1: for every malformed identifier string passed to GetOneByID,
Update, or Delete, the Service returns the invalid-identifier sentinel
ErrCreatingUUID immediately and its event trace holds no repository
invocation. -/
theorem service_parseFailure_noRepoCall (r : Repository) (raw : List Nat) (item : ItemB)
    (h : matchesTemplate uuidTemplate raw = false) :
    ((Service.GetOneByID r raw).1 = .error .creatingUUID ∧
      (Service.GetOneByID r raw).2.filter isRepoEvent = []) ∧
    ((Service.Update r raw item).1 = .error .creatingUUID ∧
      (Service.Update r raw item).2.filter isRepoEvent = []) ∧
    ((Service.Delete r raw).1 = .error .creatingUUID ∧
      (Service.Delete r raw).2.filter isRepoEvent = []) := by
  simp [Service.GetOneByID, Service.Update, Service.Delete, parseUUID, h, isRepoEvent]

/-- Witness for C1 at a concrete malformed string and repository double. -/
theorem service_parseFailure_noRepoCall_witness :
    matchesTemplate uuidTemplate badRaw = false ∧
    (((Service.GetOneByID sampleRepo badRaw).1 = .error .creatingUUID ∧
      (Service.GetOneByID sampleRepo badRaw).2.filter isRepoEvent = []) ∧
    ((Service.Update sampleRepo badRaw sampleItem).1 = .error .creatingUUID ∧
      (Service.Update sampleRepo badRaw sampleItem).2.filter isRepoEvent = []) ∧
    ((Service.Delete sampleRepo badRaw).1 = .error .creatingUUID ∧
      (Service.Delete sampleRepo badRaw).2.filter isRepoEvent = [])) :=
  ⟨by decide, service_parseFailure_noRepoCall sampleRepo badRaw sampleItem (by decide)⟩

/-- C2: for every operation and every repository error, the Service
returns that exact error value unchanged. -/
theorem service_propagatesRepoError (r : Repository) (err : Err) (raw : List Nat)
    (item : ItemB) (hraw : matchesTemplate uuidTemplate raw = true) :
    (r.getAll = .error err → (Service.GetAll r).1 = .error err) ∧
    (r.getByID (extractHex uuidTemplate raw) = .error err →
      (Service.GetOneByID r raw).1 = .error err) ∧
    (r.insert item = .error err → (Service.Create r item).1 = .error err) ∧
    (r.update (extractHex uuidTemplate raw) item = .error err →
      (Service.Update r raw item).1 = .error err) ∧
    (r.remove (extractHex uuidTemplate raw) = .error err →
      (Service.Delete r raw).1 = .error err) := by
  refine ⟨?_, ?_, ?_, ?_, ?_⟩ <;> intro h <;>
    simp [Service.GetAll, Service.GetOneByID, Service.Create, Service.Update,
      Service.Delete, parseUUID, hraw, h]

/-- Witness for C2 at the all-failing repository double and the all-zero
identifier. -/
theorem service_propagatesRepoError_witness :
    (Service.GetAll failingRepo).1 = .error (.generic 0) ∧
    (Service.GetOneByID failingRepo sampleUUIDBytes).1 = .error (.generic 0) ∧
    (Service.Create failingRepo sampleItem).1 = .error (.generic 0) ∧
    (Service.Update failingRepo sampleUUIDBytes sampleItem).1 = .error (.generic 0) ∧
    (Service.Delete failingRepo sampleUUIDBytes).1 = .error (.generic 0) := by
  have h := service_propagatesRepoError failingRepo (.generic 0) sampleUUIDBytes
    sampleItem (by decide)
  exact ⟨h.1 rfl, h.2.1 rfl, h.2.2.1 rfl, h.2.2.2.1 rfl, h.2.2.2.2 rfl⟩

/-- Does the trace end with a Logger.Error invocation? -/
def endsWithLog : List Event → Bool
  | [] => false
  | [ev] => isLogEvent ev
  | _ :: rest => endsWithLog rest

/-- A Service call outcome logs correctly: on failure the trace holds
exactly one Logger.Error invocation and it is the last emitted effect
before the call returns; on success the trace holds none. -/
def FailureLoggedOnce {α : Type} (o : Except Err α × List Event) : Prop :=
  match o.1 with
  | .error _ => (o.2.filter isLogEvent).length = 1 ∧ endsWithLog o.2 = true
  | .ok _ => (o.2.filter isLogEvent).length = 0

/-- C4: for every Service call that fails (at identifier parsing or at
the repository), Logger.Error is invoked exactly once and that invocation
is the last emitted effect before the operation returns its error; on
every successful call Logger.Error is not invoked at all. -/
theorem service_logsExactlyOncePerFailure (r : Repository) (raw : List Nat) (item : ItemB) :
    FailureLoggedOnce (Service.GetAll r) ∧
    FailureLoggedOnce (Service.GetOneByID r raw) ∧
    FailureLoggedOnce (Service.Create r item) ∧
    FailureLoggedOnce (Service.Update r raw item) ∧
    FailureLoggedOnce (Service.Delete r raw) := by
  refine ⟨?_, ?_, ?_, ?_, ?_⟩
  · cases h : r.getAll <;>
      simp [Service.GetAll, h, FailureLoggedOnce, isLogEvent, endsWithLog]
  · cases h : matchesTemplate uuidTemplate raw
    · simp [Service.GetOneByID, parseUUID, h, FailureLoggedOnce, isLogEvent, endsWithLog]
    · cases h2 : r.getByID (extractHex uuidTemplate raw) <;>
        simp [Service.GetOneByID, parseUUID, h, h2, FailureLoggedOnce, isLogEvent,
          endsWithLog]
  · cases h : r.insert item <;>
      simp [Service.Create, h, FailureLoggedOnce, isLogEvent, endsWithLog]
  · cases h : matchesTemplate uuidTemplate raw
    · simp [Service.Update, parseUUID, h, FailureLoggedOnce, isLogEvent, endsWithLog]
    · cases h2 : r.update (extractHex uuidTemplate raw) item <;>
        simp [Service.Update, parseUUID, h, h2, FailureLoggedOnce, isLogEvent, endsWithLog]
  · cases h : matchesTemplate uuidTemplate raw
    · simp [Service.Delete, parseUUID, h, FailureLoggedOnce, isLogEvent, endsWithLog]
    · cases h2 : r.remove (extractHex uuidTemplate raw) <;>
        simp [Service.Delete, parseUUID, h, h2, FailureLoggedOnce, isLogEvent, endsWithLog]

/-- C5: when the repository GetAll returns an empty collection with no
error, the Service GetAll returns it as-is with no error and the trace
holds no Logger.Error invocation. -/
theorem service_getAll_empty (r : Repository) (h : r.getAll = .ok []) :
    (Service.GetAll r).1 = .ok ([] : List ItemB) ∧
    (Service.GetAll r).2.filter isLogEvent = [] := by
  simp [Service.GetAll, h, isLogEvent]

/-- Witness for C5 at the empty-store repository double. -/
theorem service_getAll_empty_witness :
    (Service.GetAll sampleRepo).1 = .ok ([] : List ItemB) ∧
    (Service.GetAll sampleRepo).2.filter isLogEvent = [] :=
  service_getAll_empty sampleRepo rfl

/-- C6: if the repository honours the Insert contract (every successful
insert returns an entity with an assigned identifier, spec section 4.4),
then every entity returned by a successful Service Create carries a
non-empty identifier. -/
theorem service_create_assignsID (r : Repository) (item created : ItemB)
    (hc : ∀ a b, r.insert a = .ok b → b.id.isSome = true)
    (hok : (Service.Create r item).1 = .ok created) :
    created.id.isSome = true := by
  unfold Service.Create at hok
  cases h : r.insert item with
  | ok x =>
      rw [h] at hok
      simp only [Except.ok.injEq] at hok
      exact hok ▸ hc item x h
  | error e =>
      rw [h] at hok
      simp at hok

/-- Witness for C6 at the sample repository double, whose insert assigns
the all-zero key. -/
theorem service_create_assignsID_witness :
    (∀ a b, sampleRepo.insert a = .ok b → b.id.isSome = true) ∧
    (Service.Create sampleRepo sampleItem).1 =
      .ok { sampleItem with id := some (List.replicate 32 0) } ∧
    ({ sampleItem with id := some (List.replicate 32 0) } : ItemB).id.isSome = true := by
  have hc : ∀ a b, sampleRepo.insert a = .ok b → b.id.isSome = true := by
    intro a b hab
    simp only [sampleRepo, Except.ok.injEq] at hab
    subst hab
    rfl
  exact ⟨hc, rfl, service_create_assignsID sampleRepo sampleItem _ hc rfl⟩

/-- C7: on a repository failure, the contextual fields passed to
Logger.Error follow the per-operation contract: GetAll logs no fields,
GetOneByID logs the parsed key under id, Create logs the input entity
under item, Update logs the parsed key under id and the input entity
under item, Delete logs the parsed key under id. Stated as the full trace
of each operation. -/
theorem service_logFields (r : Repository) (err : Err) (raw : List Nat) (item : ItemB)
    (hraw : matchesTemplate uuidTemplate raw = true) :
    (r.getAll = .error err →
      (Service.GetAll r).2 = [.repoGetAll, .logError err FailedToGetAll []]) ∧
    (r.getByID (extractHex uuidTemplate raw) = .error err →
      (Service.GetOneByID r raw).2 =
        [.repoGetByID (extractHex uuidTemplate raw),
          .logError err FailedToGetByID
            [(itemIDKey, .key (extractHex uuidTemplate raw))]]) ∧
    (r.insert item = .error err →
      (Service.Create r item).2 =
        [.repoInsert item, .logError err FailedToCreate [(itemObjKey, .item item)]]) ∧
    (r.update (extractHex uuidTemplate raw) item = .error err →
      (Service.Update r raw item).2 =
        [.repoUpdate (extractHex uuidTemplate raw) item,
          .logError err FailedToUpdate
            [(itemIDKey, .key (extractHex uuidTemplate raw)), (itemObjKey, .item item)]]) ∧
    (r.remove (extractHex uuidTemplate raw) = .error err →
      (Service.Delete r raw).2 =
        [.repoRemove (extractHex uuidTemplate raw),
          .logError err FailedToDelete
            [(itemIDKey, .key (extractHex uuidTemplate raw))]]) := by
  refine ⟨?_, ?_, ?_, ?_, ?_⟩ <;> intro h <;>
    simp [Service.GetAll, Service.GetOneByID, Service.Create, Service.Update,
      Service.Delete, parseUUID, hraw, h]

/-- Witness for C7 at the all-failing repository double and the all-zero
identifier. -/
theorem service_logFields_witness :
    (Service.GetAll failingRepo).2 =
      [.repoGetAll, .logError (.generic 0) FailedToGetAll []] ∧
    (Service.GetOneByID failingRepo sampleUUIDBytes).2 =
      [.repoGetByID (extractHex uuidTemplate sampleUUIDBytes),
        .logError (.generic 0) FailedToGetByID
          [(itemIDKey, .key (extractHex uuidTemplate sampleUUIDBytes))]] ∧
    (Service.Create failingRepo sampleItem).2 =
      [.repoInsert sampleItem,
        .logError (.generic 0) FailedToCreate [(itemObjKey, .item sampleItem)]] ∧
    (Service.Update failingRepo sampleUUIDBytes sampleItem).2 =
      [.repoUpdate (extractHex uuidTemplate sampleUUIDBytes) sampleItem,
        .logError (.generic 0) FailedToUpdate
          [(itemIDKey, .key (extractHex uuidTemplate sampleUUIDBytes)),
            (itemObjKey, .item sampleItem)]] ∧
    (Service.Delete failingRepo sampleUUIDBytes).2 =
      [.repoRemove (extractHex uuidTemplate sampleUUIDBytes),
        .logError (.generic 0) FailedToDelete
          [(itemIDKey, .key (extractHex uuidTemplate sampleUUIDBytes))]] := by
  have h := service_logFields failingRepo (.generic 0) sampleUUIDBytes sampleItem (by decide)
  exact ⟨h.1 rfl, h.2.1 rfl, h.2.2.1 rfl, h.2.2.2.1 rfl, h.2.2.2.2 rfl⟩

/-- C8: on every identifier-parse failure in GetOneByID, Update or
Delete, the Service logs once with the static parse-failure message and
the single contextual field id holding the offending raw string. -/
theorem service_parseFailureLog (r : Repository) (raw : List Nat) (item : ItemB)
    (h : matchesTemplate uuidTemplate raw = false) :
    FailedToParseUUID = "failed to parse identifier" ∧
    (Service.GetOneByID r raw).2 =
      [.logError (.incorrectIDLength raw) FailedToParseUUID [(requestIDKey, .raw raw)]] ∧
    (Service.Update r raw item).2 =
      [.logError (.incorrectIDLength raw) FailedToParseUUID [(requestIDKey, .raw raw)]] ∧
    (Service.Delete r raw).2 =
      [.logError (.incorrectIDLength raw) FailedToParseUUID [(requestIDKey, .raw raw)]] := by
  refine ⟨rfl, ?_, ?_, ?_⟩ <;>
    simp [Service.GetOneByID, Service.Update, Service.Delete, parseUUID, h]

/-- Witness for C8 at a concrete malformed string. -/
theorem service_parseFailureLog_witness :
    matchesTemplate uuidTemplate badRaw = false ∧
    (FailedToParseUUID = "failed to parse identifier" ∧
    (Service.GetOneByID sampleRepo badRaw).2 =
      [.logError (.incorrectIDLength badRaw) FailedToParseUUID
        [(requestIDKey, .raw badRaw)]] ∧
    (Service.Update sampleRepo badRaw sampleItem).2 =
      [.logError (.incorrectIDLength badRaw) FailedToParseUUID
        [(requestIDKey, .raw badRaw)]] ∧
    (Service.Delete sampleRepo badRaw).2 =
      [.logError (.incorrectIDLength badRaw) FailedToParseUUID
        [(requestIDKey, .raw badRaw)]]) :=
  ⟨by decide, service_parseFailureLog sampleRepo badRaw sampleItem (by decide)⟩

/-- Error values carried by the Logger.Error invocations of a trace. -/
def loggedErrors (tr : List Event) : List Err :=
  tr.filterMap fun ev =>
    match ev with
    | .logError er _ _ => some er
    | _ => none

/-- C10: on every identifier-parse failure, the error returned to the
caller is the fixed sentinel ErrCreatingUUID while the error passed to
Logger.Error is the distinct diagnostic ErrIncorrectIDLength carrying the
offending string; the two are different values. -/
theorem service_parseFailure_distinctErrors (r : Repository) (raw : List Nat) (item : ItemB)
    (h : matchesTemplate uuidTemplate raw = false) :
    (Service.GetOneByID r raw).1 = .error Err.creatingUUID ∧
    loggedErrors (Service.GetOneByID r raw).2 = [.incorrectIDLength raw] ∧
    (Service.Update r raw item).1 = .error Err.creatingUUID ∧
    loggedErrors (Service.Update r raw item).2 = [.incorrectIDLength raw] ∧
    (Service.Delete r raw).1 = .error Err.creatingUUID ∧
    loggedErrors (Service.Delete r raw).2 = [.incorrectIDLength raw] ∧
    Err.creatingUUID ≠ Err.incorrectIDLength raw := by
  refine ⟨?_, ?_, ?_, ?_, ?_, ?_, ?_⟩ <;>
    simp [Service.GetOneByID, Service.Update, Service.Delete, parseUUID, h, loggedErrors]

/-- Witness for C10 at a concrete malformed string. -/
theorem service_parseFailure_distinctErrors_witness :
    matchesTemplate uuidTemplate badRaw = false ∧
    ((Service.GetOneByID sampleRepo badRaw).1 = .error Err.creatingUUID ∧
    loggedErrors (Service.GetOneByID sampleRepo badRaw).2 = [.incorrectIDLength badRaw] ∧
    (Service.Update sampleRepo badRaw sampleItem).1 = .error Err.creatingUUID ∧
    loggedErrors (Service.Update sampleRepo badRaw sampleItem).2 =
      [.incorrectIDLength badRaw] ∧
    (Service.Delete sampleRepo badRaw).1 = .error Err.creatingUUID ∧
    loggedErrors (Service.Delete sampleRepo badRaw).2 = [.incorrectIDLength badRaw] ∧
    Err.creatingUUID ≠ Err.incorrectIDLength badRaw) :=
  ⟨by decide, service_parseFailure_distinctErrors sampleRepo badRaw sampleItem (by decide)⟩

/-- C3 counterexample: the invalid-identifier failure the Service returns
to the handler is the sentinel ErrCreatingUUID, and the classifier maps
it to 500 (InternalError), not 400 (BadRequest) — as the shipped handler
test expects a 500 response when the Service fails with ErrCreatingUUID.
So the claim that the classifier maps InvalidIdentifier to BadRequest
fails at this concrete input. -/
theorem getStatus_invalidIdentifier_counterexample :
    (Service.GetOneByID sampleRepo badRaw).1 = .error Err.creatingUUID ∧
    GetStatus Err.creatingUUID = 500 ∧ GetStatus Err.creatingUUID ≠ 400 := by
  exact ⟨rfl, rfl, by decide⟩

/-- C3 amended: the classifier is a total function over error values; it
maps ValidationFailed to 400 (BadRequest), NotFound to 404 (NotFound),
and every other error value — including the invalid-identifier sentinel
ErrCreatingUUID and unrecognized kinds — to 500 (InternalError), never
panicking on an unknown error kind. -/
theorem getStatus_total (e : Err) :
    GetStatus Err.validationFailed = 400 ∧
    GetStatus Err.notFound = 404 ∧
    (e ≠ Err.validationFailed → e ≠ Err.notFound → GetStatus e = 500) := by
  refine ⟨rfl, rfl, ?_⟩
  intro h1 h2
  cases e with
  | notFound => exact absurd rfl h2
  | validationFailed => exact absurd rfl h1
  | creatingUUID => rfl
  | incorrectIDLength raw => rfl
  | generic n => rfl

/-- Witness for the amended C3 at the ErrCreatingUUID sentinel. -/
theorem getStatus_total_witness :
    GetStatus Err.validationFailed = 400 ∧ GetStatus Err.notFound = 404 ∧
    GetStatus Err.creatingUUID = 500 :=
  ⟨(getStatus_total Err.creatingUUID).1,
    (getStatus_total Err.creatingUUID).2.1,
    (getStatus_total Err.creatingUUID).2.2 (by decide) (by decide)⟩
